import Mathlib

/-!
Shallow embedding of the Evidentia-Solana programs
(`programs/cdp_stablecoin/src/lib.rs` and `programs/bond_tokenization/src/lib.rs`).

Machine integers are modelled as `Nat` (u64/u128) and `Int` (i64), with
explicit reduction modulo `2 ^ 64` / `2 ^ 128` exactly where the Rust code's
unchecked arithmetic wraps.  Account state mutated by an instruction is passed
in and the updated copy is returned; a CPI `mint_to` request is modelled as the
amount (and implicit destination) carried in the result record.  Fallible
instructions return `Except`.
-/

set_option maxRecDepth 10000

deriving instance DecidableEq for Except

namespace Evidentia

/-- Modulus of the Rust `u64` type. -/
def U64MOD : Nat := 2 ^ 64

/-- Modulus of the Rust `u128` type. -/
def U128MOD : Nat := 2 ^ 128

/-- Wrapping semantics of Rust `i64` two's-complement arithmetic: reduce an
unbounded integer into the representable range `[-2^63, 2^63)`. -/
def i64wrap (x : Int) : Int := (x + 2 ^ 63) % 2 ^ 64 - 2 ^ 63

/-- Rust `as u128` cast applied to an `i64` value: sign extension, i.e. the
value modulo `2 ^ 128` (a negative `e` becomes `2 ^ 128 + e`). -/
def i64_as_u128 (x : Int) : Nat := (x % 2 ^ 128).toNat

namespace CdpStablecoin

/-- Constant `BOND_UNIT_VALUE: u64 = 1000` from `cdp_stablecoin/src/lib.rs`. -/
def BOND_UNIT_VALUE : Nat := 1000

/-- Constant `MARGIN_PERCENT: u64 = 5` from `cdp_stablecoin/src/lib.rs`. -/
def MARGIN_PERCENT : Nat := 5

/-- The divisor `10000 * 365 * 24 * 3600` of `accrue_interest`. -/
def YEAR_BPS_DIV : Nat := 10000 * 365 * 24 * 3600

/-- Account `Vault { owner, nft_count: u64, borrowed: u64,
last_borrow_timestamp: i64 }`.  `Pubkey` is abstracted as `Nat`. -/
structure Vault where
  owner : Nat
  nft_count : Nat
  borrowed : Nat
  last_borrow_timestamp : Int
deriving DecidableEq, Repr

/-- Account `Config { admin, borrow_rate_bps: u64 }`. -/
structure Config where
  admin : Nat
  borrow_rate_bps : Nat
deriving DecidableEq, Repr

/-- Error raised by the `require!` in `deposit_bond_and_mint`
(`ErrorCode::NotEnoughNFTs`, the spec's `InsufficientCollateral`), and the
Anchor `has_one = admin` constraint failure of `SetBorrowRate`
(the spec's `Unauthorized`). -/
inductive ErrorCode where
  | NotEnoughNFTs
  | ConstraintHasOne
deriving DecidableEq, Repr

/-- Result of a successful `deposit_bond_and_mint`: the updated vault and the
amount the instruction asks the token program to mint to
`user_stablecoin_account`. -/
structure DepositResult where
  vault : Vault
  minted_to_user : Nat
deriving DecidableEq, Repr

/-- Result of `accrue_interest`: the updated vault and the amount the
instruction asks the token program to mint to `staking_reward_vault`
(the reward sink). -/
structure AccrueResult where
  vault : Vault
  minted_to_reward_sink : Nat
deriving DecidableEq, Repr

/-- Instruction `set_borrow_rate`.  The Anchor accounts struct `SetBorrowRate`
carries `#[account(mut, has_one = admin)] config` together with
`admin: Signer`, so the transaction only proceeds when the signing caller's
key equals `config.admin`; otherwise the constraint check fails before the
handler body runs and no state is written.  The handler body is
`config.borrow_rate_bps = new_rate_bps`. -/
def set_borrow_rate (config : Config) (caller : Nat) (new_rate_bps : Nat) :
    Except ErrorCode Config :=
  if caller = config.admin then
    Except.ok { config with borrow_rate_bps := new_rate_bps }
  else
    Except.error ErrorCode.ConstraintHasOne

/-- Instruction `deposit_bond_and_mint`.  Mirrors the Rust body statement by
statement: the `require!` guard on `user_nft_account.amount`, then
`vault.nft_count += nft_count`, `vault.owner = user`, the unchecked u64
computation `total_value = BOND_UNIT_VALUE * nft_count` and
`mintable = total_value * (100 - MARGIN_PERCENT) / 100`,
`vault.borrowed += mintable`, `vault.last_borrow_timestamp = now`, and the
`mint_to` CPI for `mintable`.  Every u64 `*` and `+` wraps modulo `2 ^ 64`. -/
def deposit_bond_and_mint (vault : Vault) (user : Nat) (user_nft_amount : Nat)
    (now : Int) (nft_count : Nat) : Except ErrorCode DepositResult :=
  if nft_count ≤ user_nft_amount then
    let new_nft_count := (vault.nft_count + nft_count) % U64MOD
    let total_value := BOND_UNIT_VALUE * nft_count % U64MOD
    let mintable := total_value * (100 - MARGIN_PERCENT) % U64MOD / 100
    let new_borrowed := (vault.borrowed + mintable) % U64MOD
    Except.ok
      { vault :=
          { owner := user
            nft_count := new_nft_count
            borrowed := new_borrowed
            last_borrow_timestamp := now }
        minted_to_user := mintable }
  else
    Except.error ErrorCode.NotEnoughNFTs

/-- Instruction `accrue_interest`.  Mirrors the Rust body:
`elapsed = now - vault.last_borrow_timestamp` (unchecked i64 subtraction),
`interest = (borrowed as u128) * (borrow_rate_bps as u128) * (elapsed as u128)
/ (10000 * 365 * 24 * 3600)` (unchecked u128 arithmetic), the truncating cast
`interest as u64`, the `mint_to` CPI to `staking_reward_vault`, and
`vault.last_borrow_timestamp = now`.  There is no failure path in the handler
itself. -/
def accrue_interest (vault : Vault) (config : Config) (now : Int) :
    AccrueResult :=
  let elapsed := i64wrap (now - vault.last_borrow_timestamp)
  let interest :=
    vault.borrowed * config.borrow_rate_bps % U128MOD
      * i64_as_u128 elapsed % U128MOD / YEAR_BPS_DIV
  let interest_u64 := interest % U64MOD
  { vault := { vault with last_borrow_timestamp := now }
    minted_to_reward_sink := interest_u64 }

end CdpStablecoin

namespace BondTokenization

/-- Error enum of `bond_tokenization/src/lib.rs`
(`ErrorCode::InvalidISINLength`, the spec's `InvalidIdentifierLength`). -/
inductive BondError where
  | InvalidISINLength
deriving DecidableEq, Repr

/-- Account `BondMetadata { mint, authority, isin: String }`. -/
structure BondMetadata where
  mint : Nat
  authority : Nat
  isin : String
deriving DecidableEq, Repr

/-- Result of a successful `mint_bond`: the populated metadata record and the
amount (always 1) the instruction asks the token program to mint to
`token_account`. -/
structure MintBondResult where
  bond_metadata : BondMetadata
  minted_to_token_account : Nat
deriving DecidableEq, Repr

/-- Instruction `mint_bond`.  Mirrors the Rust body:
`require!(isin.len() <= 12, ErrorCode::InvalidISINLength)` — Rust
`String::len` is the UTF-8 byte length, modelled by `String.utf8ByteSize` —
then the metadata fields are written and `mint_to` is invoked for exactly
one token. -/
def mint_bond (mint : Nat) (authority : Nat) (isin : String) :
    Except BondError MintBondResult :=
  if isin.utf8ByteSize ≤ 12 then
    Except.ok
      { bond_metadata := { mint := mint, authority := authority, isin := isin }
        minted_to_token_account := 1 }
  else
    Except.error BondError.InvalidISINLength

end BondTokenization

end Evidentia

namespace Evidentia

/-- An i64 value already inside `[-2^63, 2^63)` is unchanged by two's
complement wrapping. -/
theorem i64wrap_eq_self (x : Int) (h1 : -(2 ^ 63) ≤ x) (h2 : x < 2 ^ 63) :
    i64wrap x = x := by
  unfold i64wrap
  omega

/-- Casting a non-negative in-range value to u128 is the identity on the
underlying natural number. -/
theorem i64_as_u128_of_nonneg (x : Int) (h1 : 0 ≤ x) (h2 : x < 2 ^ 128) :
    i64_as_u128 x = x.toNat := by
  unfold i64_as_u128
  omega

/-- Casting a negative i64 value to u128 wraps it around to
`2 ^ 128 - |x|`. -/
theorem i64_as_u128_of_neg (x : Int) (h1 : -(2 ^ 63) ≤ x) (h2 : x < 0) :
    i64_as_u128 x = 2 ^ 128 - (-x).toNat := by
  unfold i64_as_u128
  omega

namespace CdpStablecoin

/-- C1: for every call to `deposit_bond_and_mint` with `unitCount > 0` whose
external balance check passes and in which no arithmetic overflow occurs,
`vault.borrowed` increases by exactly `floor(1000 * unitCount * 95 / 100)`
and `vault.nft_count` increases by exactly `unitCount`; the minted amount
`1000 * n * 95 / 100` is computed from this deposit's `unitCount` alone and
never mentions the vault's previously accumulated collateral balance. -/
theorem deposit_bond_and_mint_correct (v : Vault) (user amount n : Nat)
    (now : Int) (_hpos : 0 < n) (hbal : n ≤ amount)
    (h1 : 1000 * n * 95 < U64MOD)
    (h2 : v.borrowed + 1000 * n * 95 / 100 < U64MOD)
    (h3 : v.nft_count + n < U64MOD) :
    deposit_bond_and_mint v user amount now n =
      Except.ok
        { vault :=
            { owner := user
              nft_count := v.nft_count + n
              borrowed := v.borrowed + 1000 * n * 95 / 100
              last_borrow_timestamp := now }
          minted_to_user := 1000 * n * 95 / 100 } := by
  have hA : 1000 * n < U64MOD :=
    lt_of_le_of_lt (Nat.le_mul_of_pos_right (1000 * n) (by norm_num)) h1
  have e1 : 1000 * n % U64MOD = 1000 * n := Nat.mod_eq_of_lt hA
  have e2 : 1000 * n * 95 % U64MOD = 1000 * n * 95 := Nat.mod_eq_of_lt h1
  have e3 : (v.borrowed + 1000 * n * 95 / 100) % U64MOD =
      v.borrowed + 1000 * n * 95 / 100 := Nat.mod_eq_of_lt h2
  have e4 : (v.nft_count + n) % U64MOD = v.nft_count + n := Nat.mod_eq_of_lt h3
  simp only [deposit_bond_and_mint, BOND_UNIT_VALUE, MARGIN_PERCENT]
  rw [if_pos hbal]
  norm_num [e1, e2, e3, e4]

/-- Witness for C1 at a concrete input: depositing 3 units into a fresh vault
mints exactly 2850 and records 3 collateral units. -/
theorem deposit_bond_and_mint_correct_witness :
    deposit_bond_and_mint ⟨0, 0, 0, 0⟩ 7 3 5 3 =
      Except.ok ⟨⟨7, 3, 2850, 5⟩, 2850⟩ := by
  have h := deposit_bond_and_mint_correct ⟨0, 0, 0, 0⟩ 7 3 3 5 (by decide)
    (by decide) (by decide) (by decide) (by decide)
  simpa using h

/-- C10: a deposit of `unitCount = 0` is not rejected: it succeeds for any
external balance (even 0), leaves `nft_count` and `borrowed` unchanged,
mints 0 credit, yet still overwrites `vault.owner` with the caller and
resets `vault.last_borrow_timestamp` to the clock reading. -/
theorem deposit_bond_and_mint_zero (v : Vault) (user amount : Nat) (now : Int)
    (hn : v.nft_count < U64MOD) (hb : v.borrowed < U64MOD) :
    deposit_bond_and_mint v user amount now 0 =
      Except.ok ⟨⟨user, v.nft_count, v.borrowed, now⟩, 0⟩ := by
  have e3 : v.borrowed % U64MOD = v.borrowed := Nat.mod_eq_of_lt hb
  have e4 : v.nft_count % U64MOD = v.nft_count := Nat.mod_eq_of_lt hn
  simp only [deposit_bond_and_mint, BOND_UNIT_VALUE, MARGIN_PERCENT]
  rw [if_pos (Nat.zero_le amount)]
  norm_num [e3, e4]

/-- Witness for C10 at a concrete input: a zero-unit deposit into a vault
holding 4 units and 100 debt changes neither, mints nothing, but rewrites
the owner from 9 to 7 and the timestamp from 0 to 5. -/
theorem deposit_bond_and_mint_zero_witness :
    deposit_bond_and_mint ⟨9, 4, 100, 0⟩ 7 0 5 0 =
      Except.ok ⟨⟨7, 4, 100, 5⟩, 0⟩ := by
  exact deposit_bond_and_mint_zero ⟨9, 4, 100, 0⟩ 7 0 5 (by decide) (by decide)

/-- C6: `deposit_bond_and_mint` fails with `NotEnoughNFTs` (the spec's
`InsufficientCollateral`) exactly when the caller's external token balance is
strictly below `unitCount`; the error return carries no updated vault and no
mint request, so the attempted state mutation and issuance are abandoned
together. -/
theorem deposit_bond_and_mint_insufficient (v : Vault) (user amount n : Nat)
    (now : Int) :
    deposit_bond_and_mint v user amount now n =
      Except.error ErrorCode.NotEnoughNFTs ↔ amount < n := by
  by_cases h : n ≤ amount
  · simp [deposit_bond_and_mint, if_pos h]
    omega
  · simp [deposit_bond_and_mint, if_neg h]
    omega

/-- Witness for C6 at a concrete input: a balance of 1 cannot cover a
deposit of 2 units. -/
theorem deposit_bond_and_mint_insufficient_witness :
    deposit_bond_and_mint ⟨0, 0, 0, 0⟩ 7 1 5 2 =
      Except.error ErrorCode.NotEnoughNFTs :=
  (deposit_bond_and_mint_insufficient ⟨0, 0, 0, 0⟩ 7 1 2 5).2 (by decide)

/-- C5: `set_borrow_rate` by a caller other than `config.admin` always fails
with the `has_one = admin` constraint error (the spec's `Unauthorized`) and
returns no updated config, so `borrow_rate_bps` is unchanged; called by the
admin it sets `borrow_rate_bps` to the new value, and repeating the call
with the same value returns the very same config (functional no-op). -/
theorem set_borrow_rate_spec (c : Config) (caller rate : Nat) :
    (caller ≠ c.admin →
      set_borrow_rate c caller rate = Except.error ErrorCode.ConstraintHasOne) ∧
    (caller = c.admin →
      set_borrow_rate c caller rate = Except.ok ⟨c.admin, rate⟩ ∧
      set_borrow_rate ⟨c.admin, rate⟩ caller rate = Except.ok ⟨c.admin, rate⟩) := by
  constructor
  · intro hne
    simp [set_borrow_rate, hne]
  · intro heq
    subst heq
    constructor
    · simp [set_borrow_rate]
    · simp [set_borrow_rate]

/-- Witness for C5 at concrete inputs: caller 2 is rejected by the config
administered by 1, while caller 1 updates the rate from 7 to 9. -/
theorem set_borrow_rate_spec_witness :
    set_borrow_rate ⟨1, 7⟩ 2 9 = Except.error ErrorCode.ConstraintHasOne ∧
    set_borrow_rate ⟨1, 7⟩ 1 9 = Except.ok ⟨1, 9⟩ :=
  ⟨(set_borrow_rate_spec ⟨1, 7⟩ 2 9).1 (by decide),
   ((set_borrow_rate_spec ⟨1, 7⟩ 1 9).2 rfl).1⟩

/-- C7: every call to `accrue_interest` leaves `vault.borrowed`,
`vault.nft_count` and `vault.owner` unchanged — the interest is carried in
the separate `minted_to_reward_sink` request aimed at the reward sink, not
added to the vault's own liability record — and the only vault field it
writes is `last_borrow_timestamp`. -/
theorem accrue_interest_frame (v : Vault) (c : Config) (now : Int) :
    (accrue_interest v c now).vault.owner = v.owner ∧
    (accrue_interest v c now).vault.nft_count = v.nft_count ∧
    (accrue_interest v c now).vault.borrowed = v.borrowed ∧
    (accrue_interest v c now).vault.last_borrow_timestamp = now :=
  ⟨rfl, rfl, rfl, rfl⟩

/-- C8: `accrue_interest` sets `last_borrow_timestamp` to the clock reading
unconditionally, and a second back-to-back call at the same clock reading
computes zero elapsed time, hence zero interest (no double accrual), while
still succeeding and leaving the timestamp at that reading. -/
theorem accrue_interest_idempotent (v : Vault) (c : Config) (now : Int) :
    (accrue_interest v c now).vault.last_borrow_timestamp = now ∧
    (accrue_interest (accrue_interest v c now).vault c now).minted_to_reward_sink
      = 0 ∧
    (accrue_interest (accrue_interest v c now).vault c now).vault.last_borrow_timestamp
      = now := by
  refine ⟨rfl, ?_, rfl⟩
  show v.borrowed * c.borrow_rate_bps % U128MOD
      * i64_as_u128 (i64wrap (now - now)) % U128MOD / YEAR_BPS_DIV % U64MOD = 0
  rw [Int.sub_self]
  norm_num [i64wrap, i64_as_u128]

end CdpStablecoin

end Evidentia

namespace Evidentia

namespace CdpStablecoin

/-- C2 counterexample: at `borrowed = 2^63`, `borrow_rate_bps = 2^63` and
`elapsed = 4` (all representable u64/i64 values, elapsed non-negative) the
128-bit three-way product equals `2^128` and wraps to 0, so the amount issued
to the reward sink is 0 while the mathematical
`floor(borrowed * rateBps * elapsed / 315360000000)` is non-zero: the claimed
unconditional equality is false. -/
theorem accrue_interest_formula_cex :
    (accrue_interest ⟨0, 0, 2 ^ 63, 0⟩ ⟨0, 2 ^ 63⟩ 4).minted_to_reward_sink = 0 ∧
    2 ^ 63 * 2 ^ 63 * 4 / 315360000000 ≠ 0 :=
  ⟨by decide, by decide⟩

/-- C2 (amended): for every call to `accrue_interest` with
`0 ≤ elapsed < 2^63` in which the three-way product fits in the 128-bit
intermediate and the quotient fits in u64, the amount issued to the reward
sink equals `floor(borrowed * borrowRateBps * elapsed / 315360000000)`,
computed as in the code with the double-width intermediate before the single
division; outside that range the product wraps modulo `2^128` and the final
cast truncates modulo `2^64`. -/
theorem accrue_interest_formula (v : Vault) (c : Config) (now : Int)
    (h0 : 0 ≤ now - v.last_borrow_timestamp)
    (h1 : now - v.last_borrow_timestamp < 2 ^ 63)
    (h2 : v.borrowed * c.borrow_rate_bps * (now - v.last_borrow_timestamp).toNat
      < U128MOD)
    (h3 : v.borrowed * c.borrow_rate_bps * (now - v.last_borrow_timestamp).toNat
      / 315360000000 < U64MOD) :
    (accrue_interest v c now).minted_to_reward_sink =
      v.borrowed * c.borrow_rate_bps * (now - v.last_borrow_timestamp).toNat
        / 315360000000 := by
  have hw : i64wrap (now - v.last_borrow_timestamp)
      = now - v.last_borrow_timestamp :=
    i64wrap_eq_self _ (by omega) h1
  have hc : i64_as_u128 (now - v.last_borrow_timestamp)
      = (now - v.last_borrow_timestamp).toNat :=
    i64_as_u128_of_nonneg _ h0 (by omega)
  show v.borrowed * c.borrow_rate_bps % U128MOD
      * i64_as_u128 (i64wrap (now - v.last_borrow_timestamp)) % U128MOD
      / YEAR_BPS_DIV % U64MOD = _
  rw [hw, hc]
  set e := (now - v.last_borrow_timestamp).toNat with he
  rcases Nat.eq_zero_or_pos e with h | h
  · simp [h, YEAR_BPS_DIV]
  · have hbr : v.borrowed * c.borrow_rate_bps < U128MOD :=
      lt_of_le_of_lt (Nat.le_mul_of_pos_right _ h) h2
    have hY : YEAR_BPS_DIV = 315360000000 := by norm_num [YEAR_BPS_DIV]
    rw [Nat.mod_eq_of_lt hbr, Nat.mod_eq_of_lt h2, hY, Nat.mod_eq_of_lt h3]

/-- Witness for the amended C2 at the spec's own example: 950 borrowed at
500 bps over one year yields 47. -/
theorem accrue_interest_formula_witness :
    (accrue_interest ⟨0, 0, 950, 0⟩ ⟨0, 500⟩ 31536000).minted_to_reward_sink
      = 47 := by
  have h := accrue_interest_formula ⟨0, 0, 950, 0⟩ ⟨0, 500⟩ 31536000
    (by decide) (by decide) (by decide) (by decide)
  rw [h]
  decide

/-- C3 counterexample: with `unitCount = 2^61` (and a matching external
balance) the intermediate product `1000 * 2^61 = 125 * 2^64` exceeds the u64
range, yet `deposit_bond_and_mint` does not fail with any overflow error: it
succeeds, the product wraps to 0, and 0 credit is minted — a silent wrap to a
small value. -/
theorem deposit_bond_and_mint_overflow_cex :
    U64MOD ≤ 1000 * 2 ^ 61 ∧
    deposit_bond_and_mint ⟨0, 0, 0, 0⟩ 7 (2 ^ 61) 0 (2 ^ 61) =
      Except.ok ⟨⟨7, 2 ^ 61, 0, 0⟩, 0⟩ :=
  ⟨by decide, by decide⟩

/-- C3 (amended): the code performs no overflow detection and has no
`ArithmeticOverflow` error: whenever the balance check passes — including
every choice of `unitCount` whose intermediate product `1000 * unitCount`
exceeds the u64 range — `deposit_bond_and_mint` succeeds and the minted
amount is the u64-wrapped value `1000 * n % 2^64 * 95 % 2^64 / 100`
(`accrue_interest` likewise wraps its 128-bit intermediate and truncating
cast, as exhibited on C2's counterexample). -/
theorem deposit_bond_and_mint_overflow_wraps (v : Vault) (user amount n : Nat)
    (now : Int) (hbal : n ≤ amount) (_hov : U64MOD ≤ 1000 * n) :
    ∃ r : DepositResult,
      deposit_bond_and_mint v user amount now n = Except.ok r ∧
      r.minted_to_user = 1000 * n % U64MOD * 95 % U64MOD / 100 := by
  simp only [deposit_bond_and_mint, BOND_UNIT_VALUE, MARGIN_PERCENT]
  rw [if_pos hbal]
  exact ⟨_, rfl, by norm_num⟩

/-- Witness for the amended C3: at `unitCount = 2^62` the product wraps and
the deposit succeeds. -/
theorem deposit_bond_and_mint_overflow_wraps_witness :
    U64MOD ≤ 1000 * 2 ^ 62 ∧
    ∃ r : DepositResult,
      deposit_bond_and_mint ⟨0, 0, 0, 0⟩ 3 (2 ^ 62) 0 (2 ^ 62) = Except.ok r ∧
      r.minted_to_user = 1000 * 2 ^ 62 % U64MOD * 95 % U64MOD / 100 :=
  ⟨by decide, deposit_bond_and_mint_overflow_wraps ⟨0, 0, 0, 0⟩ 3 (2 ^ 62)
    (2 ^ 62) 0 (le_refl _) (by decide)⟩

/-- C4 counterexample: with the clock at 0, strictly earlier than the stored
timestamp 10, `accrue_interest` does not fail (no `InvalidClockOrdering`
exists anywhere in the code): it completes, the negative elapsed -10 is cast
to `2^128 - 10`, and the truncated quotient is issued to the reward sink. -/
theorem accrue_interest_clock_cex :
    accrue_interest ⟨5, 1, 1, 10⟩ ⟨0, 1⟩ 0 =
      ⟨⟨5, 1, 1, 0⟩, (2 ^ 128 - 10) / 315360000000 % U64MOD⟩ := by
  decide

/-- C4 (amended): when the clock source returns `now` strictly earlier than
`vault.last_borrow_timestamp`, `accrue_interest` performs no check and
succeeds: the negative elapsed value is cast to the unsigned quantity
`2^128 - (lastEventTimestamp - now)` (silent wrap), the resulting amount is
issued to the reward sink, and the timestamp is still reset to `now`. -/
theorem accrue_interest_negative_elapsed (v : Vault) (c : Config) (now : Int)
    (h0 : now < v.last_borrow_timestamp)
    (h1 : v.last_borrow_timestamp - now ≤ 2 ^ 63) :
    (accrue_interest v c now).minted_to_reward_sink =
      v.borrowed * c.borrow_rate_bps % U128MOD
        * (2 ^ 128 - (v.last_borrow_timestamp - now).toNat) % U128MOD
        / 315360000000 % U64MOD ∧
    (accrue_interest v c now).vault.last_borrow_timestamp = now := by
  refine ⟨?_, rfl⟩
  have hw : i64wrap (now - v.last_borrow_timestamp)
      = now - v.last_borrow_timestamp :=
    i64wrap_eq_self _ (by omega) (by omega)
  have hc : i64_as_u128 (now - v.last_borrow_timestamp)
      = 2 ^ 128 - (-(now - v.last_borrow_timestamp)).toNat :=
    i64_as_u128_of_neg _ (by omega) (by omega)
  have hn : (-(now - v.last_borrow_timestamp)).toNat
      = (v.last_borrow_timestamp - now).toNat := by omega
  have hY : YEAR_BPS_DIV = 315360000000 := by norm_num [YEAR_BPS_DIV]
  show v.borrowed * c.borrow_rate_bps % U128MOD
      * i64_as_u128 (i64wrap (now - v.last_borrow_timestamp)) % U128MOD
      / YEAR_BPS_DIV % U64MOD = _
  rw [hw, hc, hn, hY]

/-- Witness for the amended C4: a vault stamped at time 1 accrued at time 0
silently uses the wrapped elapsed `2^128 - 1`. -/
theorem accrue_interest_negative_elapsed_witness :
    (accrue_interest ⟨0, 0, 2, 1⟩ ⟨0, 3⟩ 0).minted_to_reward_sink =
      2 * 3 % U128MOD * (2 ^ 128 - 1) % U128MOD / 315360000000 % U64MOD ∧
    (accrue_interest ⟨0, 0, 2, 1⟩ ⟨0, 3⟩ 0).vault.last_borrow_timestamp = 0 := by
  exact accrue_interest_negative_elapsed ⟨0, 0, 2, 1⟩ ⟨0, 3⟩ 0
    (by decide) (by decide)

end CdpStablecoin

namespace BondTokenization

/-- C9 counterexample: the identifier `"βββββββ"` has 7 characters — within
the claimed 12-character bound — but 14 UTF-8 bytes, and Rust's
`String::len` counts bytes, so `mint_bond` rejects it with
`InvalidISINLength`: rejection is not exactly at "more than 12
characters". -/
theorem mint_bond_charlen_cex :
    ("βββββββ" : String).length ≤ 12 ∧
    mint_bond 1 2 "βββββββ" = Except.error BondError.InvalidISINLength :=
  ⟨by decide, by decide⟩

/-- C9 (amended): `mint_bond` fails with `InvalidISINLength` (the spec's
`InvalidIdentifierLength`) exactly when the identifier exceeds 12 UTF-8
bytes (which coincides with 12 characters for ASCII identifiers such as
real ISINs); otherwise it records the identifier, mint and authority in the
metadata record and issues exactly one collateral unit. -/
theorem mint_bond_spec (m a : Nat) (isin : String) :
    (mint_bond m a isin = Except.error BondError.InvalidISINLength ↔
      12 < isin.utf8ByteSize) ∧
    (isin.utf8ByteSize ≤ 12 →
      mint_bond m a isin = Except.ok ⟨⟨m, a, isin⟩, 1⟩) := by
  constructor
  · by_cases h : isin.utf8ByteSize ≤ 12
    · simp [mint_bond, if_pos h]
      omega
    · simp [mint_bond, if_neg h]
      omega
  · intro h
    simp [mint_bond, if_pos h]

/-- Witness for the amended C9 at a real 12-character ASCII ISIN. -/
theorem mint_bond_spec_witness :
    mint_bond 1 2 "US0378331005" = Except.ok ⟨⟨1, 2, "US0378331005"⟩, 1⟩ :=
  (mint_bond_spec 1 2 "US0378331005").2 (by decide)

end BondTokenization

end Evidentia
